import Mathlib

/-!
Shallow embedding of the Bluetooth HC-06 Linux driver core
(`device_file_operations.c`, `ftdi_usb_driver.c`).

Machine integers are modelled as `Nat` (all quantities involved — offsets,
lengths, buffer sizes — are non-negative and far below any overflow
boundary on the paths modelled here).  The interruptible mutex acquisition
and the user-space copy primitives are external collaborators; they are
modelled by boolean oracles (`lock_interrupted`, `copy_fails`) threaded
into each operation, and the copy is all-or-nothing as the source treats
its return value.  Lock usage is recorded in an event trace so that
lock-discipline properties can be stated.
-/

/-- Events recorded while an operation runs: mutex acquire/release,
any access (read or write) to `m_device_buffer` / `m_device_buffer_data_len`,
URB allocation, URB transfer-buffer allocation, URB submission, and timer
rescheduling. -/
inductive Event where
  | lock_acquire
  | lock_release
  | buffer_access
  | urb_alloc
  | urb_buffer_alloc
  | urb_submit
  | timer_reschedule
deriving DecidableEq, Repr

/-- `struct device_data` from `device_data.h`: the byte buffer, its declared
size in bytes, and the count of meaningful bytes currently in it.  The mutex
itself carries no data; its use is recorded in the event trace. -/
structure device_data where
  m_device_buffer : List Nat
  m_device_buffer_size : Nat
  m_device_buffer_data_len : Nat
deriving DecidableEq, Repr

/-- Return status of a file operation: a non-negative byte count,
`-ERESTARTSYS` (interrupted lock wait), or `-EFAULT` (failed user copy). -/
inductive IOStatus where
  | ok (count : Nat)
  | erestartsys
  | efault
deriving DecidableEq, Repr

/-- `true` exactly on the two error statuses. -/
def IOStatus.isError : IOStatus → Bool
  | .ok _ => false
  | .erestartsys => true
  | .efault => true

/-- Everything a `device_read` / `device_write` call produces: its return
status, the device state after the call, the caller's file offset after the
call, the bytes delivered to user space (read only), and the event trace. -/
structure IOOutcome where
  status : IOStatus
  dev : device_data
  file_offset : Nat
  bytes_out : List Nat
  events : List Event
deriving DecidableEq, Repr

/-- `device_read` from `device_file_operations.c`.

Mirrors the source: interruptible lock acquisition (interrupted ⇒
`-ERESTARTSYS`, nothing touched); if `*file_offset >= m_device_buffer_size`
unlock and return 0; clamp `num_bytes` when
`*file_offset + num_bytes >= m_device_buffer_size`; `copy_to_user` (failure
⇒ unlock, `-EFAULT`); unlock; `*file_offset += num_bytes`; return
`num_bytes`. -/
def device_read (dev : device_data) (file_offset num_bytes : Nat)
    (lock_interrupted copy_fails : Bool) : IOOutcome :=
  if lock_interrupted then
    { status := .erestartsys, dev := dev, file_offset := file_offset,
      bytes_out := [], events := [] }
  else
    let device_buffer_size := dev.m_device_buffer_size
    if file_offset ≥ device_buffer_size then
      { status := .ok 0, dev := dev, file_offset := file_offset,
        bytes_out := [], events := [.lock_acquire, .lock_release] }
    else
      let num_bytes' :=
        if file_offset + num_bytes ≥ device_buffer_size then
          device_buffer_size - file_offset
        else num_bytes
      if copy_fails then
        { status := .efault, dev := dev, file_offset := file_offset,
          bytes_out := [],
          events := [.lock_acquire, .buffer_access, .lock_release] }
      else
        { status := .ok num_bytes', dev := dev,
          file_offset := file_offset + num_bytes',
          bytes_out := (dev.m_device_buffer.drop file_offset).take num_bytes',
          events := [.lock_acquire, .buffer_access, .lock_release] }

/-- `memcpy` of `src` into `buf` starting at offset `off`
(the in-bounds behaviour of `copy_from_user`'s destination write). -/
def buffer_splice (buf : List Nat) (off : Nat) (src : List Nat) : List Nat :=
  buf.take off ++ src ++ buf.drop (off + src.length)

/-- `device_write` from `device_file_operations.c`.

Mirrors the source: interruptible lock acquisition; early return 0 when
`*file_offset >= m_device_buffer_size`; the same `>=` clamp as read;
`copy_from_user` of the clamped length from `user_buffer` (failure ⇒
unlock, `-EFAULT`); on success `m_device_buffer_data_len = num_bytes`
(overwrite); unlock; `*file_offset += num_bytes`; return `num_bytes`. -/
def device_write (dev : device_data) (file_offset : Nat)
    (user_buffer : List Nat) (num_bytes : Nat)
    (lock_interrupted copy_fails : Bool) : IOOutcome :=
  if lock_interrupted then
    { status := .erestartsys, dev := dev, file_offset := file_offset,
      bytes_out := [], events := [] }
  else
    let device_buffer_size := dev.m_device_buffer_size
    if file_offset ≥ device_buffer_size then
      { status := .ok 0, dev := dev, file_offset := file_offset,
        bytes_out := [], events := [.lock_acquire, .lock_release] }
    else
      let num_bytes' :=
        if file_offset + num_bytes ≥ device_buffer_size then
          device_buffer_size - file_offset
        else num_bytes
      if copy_fails then
        { status := .efault, dev := dev, file_offset := file_offset,
          bytes_out := [],
          events := [.lock_acquire, .buffer_access, .lock_release] }
      else
        { status := .ok num_bytes',
          dev := { dev with
            m_device_buffer :=
              buffer_splice dev.m_device_buffer file_offset
                (user_buffer.take num_bytes'),
            m_device_buffer_data_len := num_bytes' },
          file_offset := file_offset + num_bytes',
          bytes_out := [],
          events := [.lock_acquire, .buffer_access, .lock_release] }

/-- `device_data_allocate` from `ftdi_usb_driver.c`.

The two `kmalloc` calls are modelled by success oracles.  On success the
structure is zeroed, `m_device_buffer_size` is set to
`usb_bulk_endpoint_max_packet_size + 1`, `m_device_buffer_data_len` to 0,
and the buffer itself is allocated (and zeroed) with
`kmalloc(usb_bulk_endpoint_max_packet_size * sizeof(char))` — i.e. exactly
`usb_bulk_endpoint_max_packet_size` bytes, as in the source. -/
def device_data_allocate (usb_bulk_endpoint_max_packet_size : Nat)
    (struct_alloc_ok buffer_alloc_ok : Bool) : Option device_data :=
  if !struct_alloc_ok then none
  else if !buffer_alloc_ok then none
  else some
    { m_device_buffer := List.replicate usb_bulk_endpoint_max_packet_size 0,
      m_device_buffer_size := usb_bulk_endpoint_max_packet_size + 1,
      m_device_buffer_data_len := 0 }

/-- `timer_handler_bulk_out` from `ftdi_usb_driver.c`, as the event trace of
one firing.

Mirrors the source statement by statement: it first reads
`m_device_buffer_data_len` (a buffer access with no mutex call anywhere in
the handler); if that length is 0 it calls `schedule_timer` — and then,
the source having no `return` there, falls through; `usb_alloc_urb` is
attempted (failure ⇒ the `error:` label, which reschedules); the transfer
buffer `kmalloc(m_device_buffer_data_len)` is attempted (reading the length
again; failure ⇒ `error:`); the copy loop and `usb_fill_bulk_urb` read the
buffer and its length; `usb_submit_urb` is attempted (failure ⇒ `error:`);
finally the timer is rescheduled. -/
def timer_handler_bulk_out (dev : device_data)
    (urb_alloc_ok urb_buffer_alloc_ok submit_ok : Bool) : List Event :=
  let trace := [Event.buffer_access]
  let trace := trace ++
    (if dev.m_device_buffer_data_len = 0 then [Event.timer_reschedule] else [])
  let trace := trace ++ [Event.urb_alloc]
  if !urb_alloc_ok then trace ++ [Event.timer_reschedule]
  else
    let trace := trace ++ [Event.buffer_access, Event.urb_buffer_alloc]
    if !urb_buffer_alloc_ok then trace ++ [Event.timer_reschedule]
    else
      let trace := trace ++ [Event.buffer_access, Event.urb_submit]
      if !submit_ok then trace ++ [Event.timer_reschedule]
      else trace ++ [Event.timer_reschedule]

/-- Lifecycle state of the driver's owned resources: whether the device file
node (FileOperationsDispatcher) is registered with the USB core, whether
each periodic timer is armed, whether the `device_data` (BufferedChannel)
is allocated, and whether the usb_driver itself is registered. -/
structure DriverState where
  dispatcher_registered : Bool
  timer_bulk_in_armed : Bool
  timer_bulk_out_armed : Bool
  channel_allocated : Bool
  usb_driver_registered : Bool
deriving DecidableEq, Repr

/-- The `Bound` lifecycle state: everything set up after a successful probe. -/
def bound_state : DriverState :=
  { dispatcher_registered := true, timer_bulk_in_armed := true,
    timer_bulk_out_armed := true, channel_allocated := true,
    usb_driver_registered := true }

/-- `driver_disconnect` from `ftdi_usb_driver.c`: its entire body is the
single call `usb_deregister_dev(interface, &g_usb_device_class)`, which
unregisters the device file node.  No timer is deleted and no device data
is freed here. -/
def driver_disconnect (s : DriverState) : DriverState :=
  { s with dispatcher_registered := false }

/-- `ftdi_usb_driver_deregister` from `ftdi_usb_driver.c`:
`usb_deregister` (the usb_driver), `del_timer_sync` on both timers, then
`device_data_free`. -/
def ftdi_usb_driver_deregister (s : DriverState) : DriverState :=
  { s with usb_driver_registered := false,
           timer_bulk_in_armed := false,
           timer_bulk_out_armed := false,
           channel_allocated := false }

-- -----------------------------------------------------------------
-- Theorems
-- -----------------------------------------------------------------

/-- C1: for every read or write call with `0 ≤ offset < capacity` and
requested length `n` such that `offset + n > capacity` (lock acquired,
copy succeeding), the call returns exactly `capacity - offset` and advances
the caller's offset cursor by exactly that count, never by `n`. -/
theorem C1_clamping_law (dev : device_data) (file_offset num_bytes : Nat)
    (user_buffer : List Nat)
    (hlt : file_offset < dev.m_device_buffer_size)
    (hgt : dev.m_device_buffer_size < file_offset + num_bytes) :
    (device_read dev file_offset num_bytes false false).status =
      IOStatus.ok (dev.m_device_buffer_size - file_offset) ∧
    (device_read dev file_offset num_bytes false false).file_offset =
      file_offset + (dev.m_device_buffer_size - file_offset) ∧
    (device_write dev file_offset user_buffer num_bytes false false).status =
      IOStatus.ok (dev.m_device_buffer_size - file_offset) ∧
    (device_write dev file_offset user_buffer num_bytes false false).file_offset =
      file_offset + (dev.m_device_buffer_size - file_offset) := by
  have h1 : ¬ file_offset ≥ dev.m_device_buffer_size := Nat.not_le.mpr hlt
  have h2 : file_offset + num_bytes ≥ dev.m_device_buffer_size := Nat.le_of_lt hgt
  simp [device_read, device_write, h1, h2]

/-- C1 witness: capacity 8, offset 3, requested length 10 — both read and
write transfer 5 bytes and move the cursor to 8. -/
theorem C1_clamping_law_witness :
    (device_read ⟨List.replicate 8 0, 8, 0⟩ 3 10 false false).status =
      IOStatus.ok (8 - 3) ∧
    (device_read ⟨List.replicate 8 0, 8, 0⟩ 3 10 false false).file_offset =
      3 + (8 - 3) ∧
    (device_write ⟨List.replicate 8 0, 8, 0⟩ 3 [1, 2] 10 false false).status =
      IOStatus.ok (8 - 3) ∧
    (device_write ⟨List.replicate 8 0, 8, 0⟩ 3 [1, 2] 10 false false).file_offset =
      3 + (8 - 3) :=
  C1_clamping_law ⟨List.replicate 8 0, 8, 0⟩ 3 10 [1, 2] (by decide) (by decide)

/-- C3: for every `offset ≥ capacity` and every requested length (lock
acquired), `device_read` returns 0 with no error, the whole device state —
in particular `m_device_buffer` and `m_device_buffer_data_len` — is
unchanged, and so is the cursor; this holds even if the user copy would
have failed, because no copy is attempted. -/
theorem C3_read_past_end (dev : device_data) (file_offset num_bytes : Nat)
    (copy_fails : Bool)
    (hge : file_offset ≥ dev.m_device_buffer_size) :
    (device_read dev file_offset num_bytes false copy_fails).status =
      IOStatus.ok 0 ∧
    (device_read dev file_offset num_bytes false copy_fails).dev = dev ∧
    (device_read dev file_offset num_bytes false copy_fails).file_offset =
      file_offset := by
  simp [device_read, hge]

/-- C3 witness: capacity 8, offset 9, requested length 4. -/
theorem C3_read_past_end_witness :
    (device_read ⟨List.replicate 8 0, 8, 2⟩ 9 4 false false).status =
      IOStatus.ok 0 ∧
    (device_read ⟨List.replicate 8 0, 8, 2⟩ 9 4 false false).dev =
      ⟨List.replicate 8 0, 8, 2⟩ ∧
    (device_read ⟨List.replicate 8 0, 8, 2⟩ 9 4 false false).file_offset = 9 :=
  C3_read_past_end ⟨List.replicate 8 0, 8, 2⟩ 9 4 false (by decide)

/-- C9 counterexample: capacity 8, freshly initialized zeroed buffer —
`read(0, 5)` returns 5 bytes, not 0; the clamp `0 + 5 >= 8` does not fire
and `m_device_buffer_data_len` is never consulted. -/
theorem C9_read_0_5_returns_5_not_0 :
    (device_read ⟨List.replicate 8 0, 8, 0⟩ 0 5 false false).status =
      IOStatus.ok 5 ∧
    (device_read ⟨List.replicate 8 0, 8, 0⟩ 0 5 false false).status ≠
      IOStatus.ok 0 := by decide

/-- C9 amended: with capacity 8 and a freshly initialized (empty, zeroed)
buffer, `read(0, 5)` returns 5 bytes — all zero — and advances the cursor
to 5. -/
theorem C9_amended_read_0_5_returns_5 :
    (device_read ⟨List.replicate 8 0, 8, 0⟩ 0 5 false false).status =
      IOStatus.ok 5 ∧
    (device_read ⟨List.replicate 8 0, 8, 0⟩ 0 5 false false).bytes_out =
      List.replicate 5 0 ∧
    (device_read ⟨List.replicate 8 0, 8, 0⟩ 0 5 false false).file_offset =
      5 := by decide

/-- C4 counterexample: capacity 8, prior `m_device_buffer_data_len = 5`,
`write(8, 3 bytes)` succeeds returning 0 bytes written, yet
`m_device_buffer_data_len` stays 5 — a successful write after which
`valid_len` differs from the number of bytes actually written. -/
theorem C4_past_end_write_keeps_old_len :
    (device_write ⟨List.replicate 8 0, 8, 5⟩ 8 [1, 2, 3] 3 false false).status =
      IOStatus.ok 0 ∧
    (device_write ⟨List.replicate 8 0, 8, 5⟩ 8 [1, 2, 3] 3
      false false).dev.m_device_buffer_data_len = 5 := by decide

/-- C4 amended: after every successful write whose offset is below capacity
(i.e. every write that performs the copy), `m_device_buffer_data_len`
equals exactly the clamped number of bytes written by that call,
overwriting — not accumulating with — its prior value. -/
theorem C4_valid_len_overwritten (dev : device_data)
    (file_offset num_bytes : Nat) (user_buffer : List Nat)
    (hlt : file_offset < dev.m_device_buffer_size) :
    (device_write dev file_offset user_buffer num_bytes false false).status =
      IOStatus.ok (min num_bytes (dev.m_device_buffer_size - file_offset)) ∧
    (device_write dev file_offset user_buffer num_bytes
      false false).dev.m_device_buffer_data_len =
      min num_bytes (dev.m_device_buffer_size - file_offset) := by
  have h1 : ¬ file_offset ≥ dev.m_device_buffer_size := Nat.not_le.mpr hlt
  simp only [device_write, h1, Bool.false_eq_true, if_false, ge_iff_le,
    Nat.not_le]
  split_ifs with h2 <;> simp <;> omega

/-- C4 witness: capacity 8, prior length 7, `write(2, 3 bytes)` sets
`m_device_buffer_data_len` to 3 (not 7, not 10). -/
theorem C4_valid_len_overwritten_witness :
    (device_write ⟨List.replicate 8 0, 8, 7⟩ 2 [1, 2, 3] 3 false false).status =
      IOStatus.ok (min 3 (8 - 2)) ∧
    (device_write ⟨List.replicate 8 0, 8, 7⟩ 2 [1, 2, 3] 3
      false false).dev.m_device_buffer_data_len = min 3 (8 - 2) :=
  C4_valid_len_overwritten ⟨List.replicate 8 0, 8, 7⟩ 2 3 [1, 2, 3] (by decide)

/-- C5: every failing read or write call — `-ERESTARTSYS` from an
interrupted lock wait or `-EFAULT` from a failed boundary copy — leaves the
device state (`m_device_buffer` and `m_device_buffer_data_len`) and the
caller's offset cursor unchanged. -/
theorem C5_errors_leave_state_unchanged (dev : device_data)
    (file_offset num_bytes : Nat) (user_buffer : List Nat)
    (lock_interrupted copy_fails : Bool) :
    ((device_read dev file_offset num_bytes
        lock_interrupted copy_fails).status.isError = true →
      (device_read dev file_offset num_bytes
        lock_interrupted copy_fails).dev = dev ∧
      (device_read dev file_offset num_bytes
        lock_interrupted copy_fails).file_offset = file_offset) ∧
    ((device_write dev file_offset user_buffer num_bytes
        lock_interrupted copy_fails).status.isError = true →
      (device_write dev file_offset user_buffer num_bytes
        lock_interrupted copy_fails).dev = dev ∧
      (device_write dev file_offset user_buffer num_bytes
        lock_interrupted copy_fails).file_offset = file_offset) := by
  cases lock_interrupted <;>
    simp only [device_read, device_write, IOStatus.isError] <;>
    split_ifs <;> simp [IOStatus.isError]

/-- C5 witness: an interrupted write and a faulting read both leave the
device state and cursor untouched, via the theorem applied at capacity 8,
offset 2. -/
theorem C5_errors_leave_state_unchanged_witness :
    ((device_write ⟨List.replicate 8 0, 8, 4⟩ 2 [9] 1 true false).dev =
        ⟨List.replicate 8 0, 8, 4⟩ ∧
      (device_write ⟨List.replicate 8 0, 8, 4⟩ 2 [9] 1
        true false).file_offset = 2) ∧
    ((device_read ⟨List.replicate 8 0, 8, 4⟩ 2 3 false true).dev =
        ⟨List.replicate 8 0, 8, 4⟩ ∧
      (device_read ⟨List.replicate 8 0, 8, 4⟩ 2 3 false true).file_offset =
        2) :=
  ⟨(C5_errors_leave_state_unchanged ⟨List.replicate 8 0, 8, 4⟩ 2 1 [9]
      true false).2 (by decide),
   (C5_errors_leave_state_unchanged ⟨List.replicate 8 0, 8, 4⟩ 2 3 [9]
      false true).1 (by decide)⟩

/-- C10: in every `device_read` and `device_write` call the mutex acquire
and release counts in the event trace balance — every path that takes the
lock releases it before returning — and the interrupted path produces an
empty trace, never having held the lock. -/
theorem C10_lock_always_released (dev : device_data)
    (file_offset num_bytes : Nat) (user_buffer : List Nat)
    (lock_interrupted copy_fails : Bool) :
    ((device_read dev file_offset num_bytes
        lock_interrupted copy_fails).events.count Event.lock_acquire =
      (device_read dev file_offset num_bytes
        lock_interrupted copy_fails).events.count Event.lock_release) ∧
    (device_read dev file_offset num_bytes true copy_fails).events = [] ∧
    ((device_write dev file_offset user_buffer num_bytes
        lock_interrupted copy_fails).events.count Event.lock_acquire =
      (device_write dev file_offset user_buffer num_bytes
        lock_interrupted copy_fails).events.count Event.lock_release) ∧
    (device_write dev file_offset user_buffer num_bytes true copy_fails).events =
      [] := by
  cases lock_interrupted <;>
    simp only [device_read, device_write] <;>
    split_ifs <;> simp

/-- C6: `timer_handler_bulk_out` reads `m_device_buffer_data_len` and
`m_device_buffer` in every firing, with every oracle outcome, yet its trace
contains no mutex acquisition at all — the worker accesses the shared
buffer state without ever holding the channel's lock. -/
theorem C6_worker_reads_buffer_without_lock (dev : device_data)
    (urb_alloc_ok urb_buffer_alloc_ok submit_ok : Bool) :
    Event.buffer_access ∈
      timer_handler_bulk_out dev urb_alloc_ok urb_buffer_alloc_ok submit_ok ∧
    Event.lock_acquire ∉
      timer_handler_bulk_out dev urb_alloc_ok urb_buffer_alloc_ok submit_ok := by
  cases urb_alloc_ok <;> cases urb_buffer_alloc_ok <;> cases submit_ok <;>
    simp only [timer_handler_bulk_out] <;> split_ifs <;> simp

/-- C7: a firing of `timer_handler_bulk_out` with
`m_device_buffer_data_len = 0` (all allocations and the submission
succeeding) reschedules the timer but still falls through — its trace
contains a URB allocation, a transfer-buffer allocation and a transport
submission, because the zero-length branch lacks a `return`. -/
theorem C7_zero_len_firing_still_submits :
    Event.timer_reschedule ∈
      timer_handler_bulk_out ⟨List.replicate 8 0, 8, 0⟩ true true true ∧
    Event.urb_alloc ∈
      timer_handler_bulk_out ⟨List.replicate 8 0, 8, 0⟩ true true true ∧
    Event.urb_buffer_alloc ∈
      timer_handler_bulk_out ⟨List.replicate 8 0, 8, 0⟩ true true true ∧
    Event.urb_submit ∈
      timer_handler_bulk_out ⟨List.replicate 8 0, 8, 0⟩ true true true := by
  decide

/-- C8 counterexample: from the `Bound` state, `driver_disconnect` — whose
whole body is `usb_deregister_dev` — leaves both periodic timers armed and
the device data allocated; it does not perform the teardown the claim
ascribes to it. -/
theorem C8_disconnect_leaves_timers_and_channel :
    (driver_disconnect bound_state).timer_bulk_in_armed = true ∧
    (driver_disconnect bound_state).timer_bulk_out_armed = true ∧
    (driver_disconnect bound_state).channel_allocated = true ∧
    (driver_disconnect bound_state).dispatcher_registered = false := by decide

/-- C8 amended: `driver_disconnect` only unregisters the device file node
(FileOperationsDispatcher), leaving every other resource exactly as it
was; both workers are disarmed and the BufferedChannel released only by
`ftdi_usb_driver_deregister` at module teardown. -/
theorem C8_amended_disconnect_only_unregisters (s : DriverState) :
    driver_disconnect s = { s with dispatcher_registered := false } ∧
    (ftdi_usb_driver_deregister s).timer_bulk_in_armed = false ∧
    (ftdi_usb_driver_deregister s).timer_bulk_out_armed = false ∧
    (ftdi_usb_driver_deregister s).channel_allocated = false := by
  simp [driver_disconnect, ftdi_usb_driver_deregister]

/-- C2: `device_data_allocate` with maximum packet size 64 declares
`m_device_buffer_size = 65` yet allocates a buffer of only 64 bytes, so
the in-capacity index 64 (i.e. `capacity - 1`) lies outside the allocated
storage — the storage does not comprise `capacity` bytes. -/
theorem C2_storage_one_byte_short :
    device_data_allocate 64 true true =
      some ⟨List.replicate 64 0, 65, 0⟩ ∧
    (List.replicate 64 (0 : Nat)).length = 64 ∧
    ¬ ((64 : Nat) < (List.replicate 64 (0 : Nat)).length) ∧
    (64 : Nat) < 65 := by decide
